import Mathlib

/-!
Shallow embedding of the group-management bot (`src/bot.py`): the moderation
filter pipeline (`filter_message`), the configuration storage
(`BotStorage.add_banned_word` / `remove_banned_word`), the wizard conversation
handlers (`handle_text_input`, `handle_media_input`, `confirm_save_message`)
and the broadcast scheduler (`send_recurring_messages`), together with
theorems settling the frozen claims about them.
-/

namespace GroupBot

/-! ## Text utilities

Python string operations used by the bot, modelled on `List Char` / `String`.
`str.lower` is modelled with `Char.toLower` (ASCII case folding).
-/

/-- `s.lower()` on a character list. -/
def lowerL (l : List Char) : List Char := l.map Char.toLower

/-- `s.lower()` on a string. -/
def lowerS (s : String) : String := ⟨lowerL s.data⟩

/-- Whether `n` is a prefix of `h` (exact characters). -/
def isPrefixList : List Char → List Char → Bool
  | [], _ => true
  | _ :: _, [] => false
  | a :: as, b :: bs => a == b && isPrefixList as bs

/-- Python's `needle in hay` substring test. -/
def containsSub (n : List Char) : List Char → Bool
  | [] => isPrefixList n []
  | c :: t => isPrefixList n (c :: t) || containsSub n t

/-! ## Link / mention patterns (`filter_message`, bot.py lines 1210-1232)

The URL regex is
`http[s]?://(?:[a-zA-Z]|[0-9]|[$-_@.&+]|[!*\\(\\),]|(?:%[0-9a-fA-F][0-9a-fA-F]))+`
searched with `re.IGNORECASE`.  Since `%` lies in the character range `$-_`,
the regex matches iff the text contains `http://` or `https://`
(case-insensitively) followed by at least one character of the class below.
The Telegram pattern is `t\.me/|telegram\.me/|telegram\.dog/`, also
IGNORECASE, i.e. a case-insensitive substring test for the three literals.
-/

/-- One character of the URL regex's repeated class.  The range `$-_` covers
codepoints 0x24..0x5F (which already includes `@ . & + %` and `A-Z`). -/
def isUrlChar (c : Char) : Bool :=
  ('a' ≤ c && c ≤ 'z') || ('A' ≤ c && c ≤ 'Z') || ('0' ≤ c && c ≤ '9') ||
  ('$' ≤ c && c ≤ '_') ||
  c == '!' || c == '*' || c == '\\' || c == '(' || c == ')' || c == ','

/-- After dropping `n` characters (the matched scheme), is the next character
a URL-class character? -/
def urlCharAfter (l : List Char) (n : Nat) : Bool :=
  match l.drop n with
  | c :: _ => isUrlChar c
  | [] => false

/-- `re.search(url_pattern, text, re.IGNORECASE)` on the lower-cased text:
some position starts with `http://` or `https://` followed by at least one
URL-class character. -/
def urlSearchL : List Char → Bool
  | [] => false
  | c :: t =>
    (isPrefixList ("http://".data) (c :: t) && urlCharAfter (c :: t) 7) ||
    (isPrefixList ("https://".data) (c :: t) && urlCharAfter (c :: t) 8) ||
    urlSearchL t

/-- The whole link check of `filter_message`: URL-pattern search or one of the
Telegram-domain literals, all case-insensitive. -/
def linkMatch (text : String) : Bool :=
  urlSearchL (lowerL text.data) ||
  containsSub ("t.me/".data) (lowerL text.data) ||
  containsSub ("telegram.me/".data) (lowerL text.data) ||
  containsSub ("telegram.dog/".data) (lowerL text.data)

/-- `\w`: a word character (ASCII model of Python's regex class). -/
def isWordChar (c : Char) : Bool := c.isAlpha || c.isDigit || c == '_'

/-- `re.search(r'@\w+', text)`: some `@` immediately followed by a word
character. -/
def mentionSearch : List Char → Bool
  | [] => false
  | [_] => false
  | a :: b :: t => (a == '@' && isWordChar b) || mentionSearch (b :: t)

/-! ## Moderation pipeline (`filter_message`, bot.py lines 1175-1250) -/

/-- Per-tenant moderation configuration, as read by `filter_message` from
`BotStorage` (`get_block_links`, `get_block_mentions`, `get_banned_words`,
`get_auto_replies`).  The auto-reply map is an association list in dict
insertion order. -/
structure ModConfig where
  block_links : Bool
  block_mentions : Bool
  banned_words : List String
  auto_replies : List (String × String)
deriving DecidableEq

/-- The reason attached to a deletion (`reason` variable in `filter_message`;
the source strings are `"🔗 links"`, `"📢 mentions"`, `"🚫 banned word"`). -/
inductive DeleteReason where
  | links
  | mentions
  | bannedWord
deriving DecidableEq

/-- The banned-word loop: first stored word that is a substring of the
lower-cased text (`if word in text_lower: ... break`). -/
def firstBannedWord (ws : List String) (textLower : List Char) : Option String :=
  ws.find? (fun w => containsSub w.data textLower)

/-- The deletion decision of `filter_message` for a message with body `text`:
admins bypass all deletion filters; otherwise links, then mentions, then
banned words, in source order (each later check guarded by
`not should_delete`). -/
def deleteDecision (cfg : ModConfig) (isAdminUser : Bool) (text : String) :
    Option DeleteReason :=
  if isAdminUser then none
  else if cfg.block_links && linkMatch text then some .links
  else if cfg.block_mentions && mentionSearch text.data then some .mentions
  else if (firstBannedWord cfg.banned_words (lowerL text.data)).isSome then
    some .bannedWord
  else none

/-- The auto-reply loop of `filter_message`: the reply of the first trigger
(in dict iteration order) contained in the lower-cased text; the loop
`break`s after one reply. -/
def autoReplyFor (cfg : ModConfig) (text : String) : Option String :=
  (cfg.auto_replies.find? (fun p => containsSub p.1.data (lowerL text.data))).map
    (fun p => p.2)

/-- The observable outcome of `filter_message` on one inbound group message:
the auto-reply sent (if any) and the deletion performed (if any).  The
auto-reply check runs before the admin early-return, the deletion decision
after it. -/
def filterMessage (cfg : ModConfig) (isAdminUser : Bool) (text : String) :
    Option String × Option DeleteReason :=
  (autoReplyFor cfg text, deleteDecision cfg isAdminUser text)

/-! ## Banned-word storage (`BotStorage`, bot.py lines 61-77)

`self.data["banned_words"]` is a dict `group_id -> [word, ...]`, modelled as
an association list in insertion order.
-/

/-- `dict.get(k, d)` on an association list in insertion order. -/
def getAssoc {α β : Type} [BEq α] (l : List (α × β)) (k : α) (d : β) : β :=
  ((l.find? (fun p => p.1 == k)).map (fun p => p.2)).getD d

/-- `if k not in dict: dict[k] = d` — append a default entry when the key is
absent. -/
def ensureKey {α β : Type} [BEq α] (l : List (α × β)) (k : α) (d : β) :
    List (α × β) :=
  if l.any (fun p => p.1 == k) then l else l ++ [(k, d)]

/-- `dict[k] = f(dict[k])` — rewrite the value stored under `k` in place. -/
def updateAssoc {α β : Type} [BEq α] (l : List (α × β)) (k : α) (f : β → β) :
    List (α × β) :=
  l.map (fun p => if p.1 == k then (p.1, f p.2) else p)

/-- The `banned_words` mapping of `BotStorage.data`. -/
abbrev BannedStore := List (String × List String)

/-- `BotStorage.get_banned_words`: `self.data["banned_words"].get(chat_id, [])`. -/
def get_banned_words (st : BannedStore) (chat_id : String) : List String :=
  getAssoc st chat_id []

/-- `BotStorage.add_banned_word`: create the tenant's list if absent, then
append `word.lower()` unless some stored word has the same lower-casing. -/
def add_banned_word (st : BannedStore) (chat_id word : String) : BannedStore :=
  if (get_banned_words (ensureKey st chat_id []) chat_id).any
      (fun w => lowerS w == lowerS word) then ensureKey st chat_id []
  else updateAssoc (ensureKey st chat_id []) chat_id (fun ws => ws ++ [lowerS word])

/-- `BotStorage.remove_banned_word`: if the tenant exists, keep only words
whose lower-casing differs from `word.lower()`. -/
def remove_banned_word (st : BannedStore) (chat_id word : String) : BannedStore :=
  if st.any (fun p => p.1 == chat_id) then
    updateAssoc st chat_id (fun ws => ws.filter (fun w => !(lowerS w == lowerS word)))
  else st

/-! ## Wizard data (`storage.temp_messages` / recurring items) -/

/-- One inline button, `{'text': ..., 'url': ...}` in the source. -/
structure Button where
  text : String
  url : String
deriving DecidableEq

/-- A wizard session, `storage.temp_messages[user_id]` (initialised in
`handle_recurring_action` with all `None` / `[]` / `False`). -/
structure Session where
  text : Option String
  media : Option String
  media_type : Option String
  buttons : List Button
  interval : Option Int
  chat_id : Option String
  delete_previous : Bool
  pin_message : Bool
deriving DecidableEq

/-- The fresh session created on the "Add New Message" action. -/
def freshSession : Session :=
  { text := none, media := none, media_type := none, buttons := [],
    interval := none, chat_id := none,
    delete_previous := false, pin_message := false }

/-- A stored recurring item (dict built in `confirm_save_message`).
`last_sent` is an epoch timestamp (`0` = never); `interval` is in minutes and
kept as `Option` because the dict field is copied verbatim from the session. -/
structure RecurringItem where
  text : Option String
  media : Option String
  media_type : Option String
  buttons : List Button
  interval : Option Int
  delete_previous : Bool
  pin_message : Bool
  last_sent : Int
  last_message_id : Option Nat
deriving DecidableEq

/-- The `recurring_messages` mapping of `BotStorage.data`, keyed by the
session's `chat_id` value (a Python dict key, hence `Option String`: storing
under `None` is representable). -/
abbrev RecStore := List (Option String × List RecurringItem)

/-- `BotStorage.get_recurring_messages`. -/
def getRecurring (rs : RecStore) (k : Option String) : List RecurringItem :=
  getAssoc rs k []

/-- `BotStorage.add_recurring_message`: create the key if absent, append. -/
def addRecurring (rs : RecStore) (k : Option String) (it : RecurringItem) : RecStore :=
  updateAssoc (ensureKey rs k []) k (fun items => items ++ [it])

/-! ## Wizard text handler (`handle_text_input`, bot.py lines 384-512)

The handler reads `context.user_data['state']` (a string or `None`) and this
user's `storage.temp_messages` entry, and may send one reply.  Replies are
identified by an enum, one constructor per `reply_text` call site.
-/

/-- Which reply `handle_text_input` / `handle_media_input` sends, if any. -/
inductive Reply where
  | cancelled
  | invalidChatId
  | notAdmin
  | step2Text
  | step3Media
  | step4Buttons
  | deleteOptionPrompt
  | intervalTooSmall
  | invalidNumber
  | previewShown
  | unsupportedMedia
deriving DecidableEq

/-- Result of a wizard input handler: the new `state`, the new
`temp_messages` entry of this user, and the reply sent. -/
structure HandlerResult where
  state : Option String
  temp : Option Session
  reply : Option Reply
deriving DecidableEq

/-- Python truthiness of the `state` value (`if not state`): `None` or the
empty string. -/
def stateFalsy : Option String → Bool
  | none => true
  | some s => s.isEmpty

/-- `line.split('|', 1)`: split at the first `'|'`, if any. -/
def splitFirstBar : List Char → Option (List Char × List Char)
  | [] => none
  | c :: t =>
    if c == '|' then some ([], t)
    else (splitFirstBar t).map (fun p => (c :: p.1, p.2))

/-- Python's `str.strip()`: drop whitespace from both ends. -/
def stripChars (l : List Char) : List Char :=
  ((l.dropWhile Char.isWhitespace).reverse.dropWhile Char.isWhitespace).reverse

/-- Python's `str.split('\n')`: split on every newline, keeping empty
pieces (`"".split('\n') == [""]`). -/
def splitLines : List Char → List (List Char)
  | [] => [[]]
  | c :: t =>
    match splitLines t with
    | [] => [[]]
    | line :: rest =>
      if c == '\n' then [] :: line :: rest else (c :: line) :: rest

/-- One line of the button list: a `{'text': ..., 'url': ...}` pair when the
line contains `'|'` (split at the first `'|'`, both halves stripped),
dropped otherwise. -/
def parseButtonLine (line : List Char) : Option Button :=
  (splitFirstBar line).map
    (fun p => ⟨String.mk (stripChars p.1), String.mk (stripChars p.2)⟩)

/-- The button parsing of the `waiting_buttons` branch:
`text.strip().split('\n')`, keeping only lines with a `'|'`. -/
def parseButtons (input : String) : List Button :=
  (splitLines (stripChars input.data)).filterMap parseButtonLine

/-- `handle_text_input` on a private text message.  `adminOk` is the result
of the `is_group_admin` transport lookup used in the `waiting_chatid` branch;
`int(...)` is modelled by `String.toInt?`. -/
def handleTextInput (state : Option String) (temp : Option Session)
    (input : String) (adminOk : Bool) : HandlerResult :=
  if stateFalsy state || temp.isNone then ⟨state, temp, none⟩
  else if input == "/cancel" then ⟨none, none, some .cancelled⟩
  else
    match state, temp with
    | some st, some s =>
      if st == "waiting_chatid" then
        match input.toInt? with
        | none => ⟨state, temp, some .invalidChatId⟩
        | some n =>
          if adminOk then
            ⟨some "waiting_text", some { s with chat_id := some (toString n) },
             some .step2Text⟩
          else ⟨state, temp, some .notAdmin⟩
      else if st == "waiting_text" then
        if lowerS input == "skip" then ⟨some "waiting_media", some s, some .step3Media⟩
        else
          ⟨some "waiting_media", some { s with text := some input }, some .step3Media⟩
      else if st == "waiting_buttons" then
        if lowerS input == "skip" then
          ⟨some "waiting_delete_option", some { s with buttons := [] },
           some .deleteOptionPrompt⟩
        else
          ⟨some "waiting_delete_option", some { s with buttons := parseButtons input },
           some .deleteOptionPrompt⟩
      else if st == "waiting_interval" then
        match input.toInt? with
        | none => ⟨state, temp, some .invalidNumber⟩
        | some n =>
          if n < 1 then ⟨state, temp, some .intervalTooSmall⟩
          else ⟨state, some { s with interval := some n }, some .previewShown⟩
      else ⟨state, temp, none⟩
    | _, _ => ⟨state, temp, none⟩

/-- The media message seen by `handle_media_input`: which of
`update.message.photo` / `.video` / `.animation` is set, with the opaque
`file_id`, or none of them. -/
inductive MediaInput where
  | photo (file_id : String)
  | video (file_id : String)
  | animation (file_id : String)
  | other
deriving DecidableEq

/-- `handle_media_input` (bot.py lines 515-555): only acts in state
`waiting_media` with an open session; records the file reference and type and
advances to `waiting_buttons`, or rejects unsupported media. -/
def handleMediaInput (state : Option String) (temp : Option Session)
    (m : MediaInput) : HandlerResult :=
  if !(state == some "waiting_media") || temp.isNone then ⟨state, temp, none⟩
  else
    match temp, m with
    | some s, .photo fid =>
      ⟨some "waiting_buttons",
       some { s with media := some fid, media_type := some "photo" },
       some .step4Buttons⟩
    | some s, .video fid =>
      ⟨some "waiting_buttons",
       some { s with media := some fid, media_type := some "video" },
       some .step4Buttons⟩
    | some s, .animation fid =>
      ⟨some "waiting_buttons",
       some { s with media := some fid, media_type := some "animation" },
       some .step4Buttons⟩
    | some _, .other => ⟨state, temp, some .unsupportedMedia⟩
    | none, _ => ⟨state, temp, none⟩

/-! ## Finalization (`confirm_save_message`, bot.py lines 726-774) -/

/-- The `recurring_data` dict built by `confirm_save_message` from a session:
all collected fields verbatim, `last_sent = 0`, `last_message_id = None`. -/
def finalizeSession (s : Session) : RecurringItem :=
  { text := s.text, media := s.media, media_type := s.media_type,
    buttons := s.buttons, interval := s.interval,
    delete_previous := s.delete_previous, pin_message := s.pin_message,
    last_sent := 0, last_message_id := none }

/-- Result of the save action: new `state`, new `temp_messages` entry of this
user, new `recurring_messages` store, and whether a save happened. -/
structure SaveResult where
  state : Option String
  temp : Option Session
  store : RecStore
  saved : Bool
deriving DecidableEq

/-- `confirm_save_message`: without an open session it only answers; with one
it appends the finalized item under the session's `chat_id`, deletes the
session and clears the conversation state. -/
def confirmSave (state : Option String) (temp : Option Session) (rs : RecStore) :
    SaveResult :=
  match temp with
  | none => ⟨state, none, rs, false⟩
  | some s => ⟨none, none, addRecurring rs s.chat_id (finalizeSession s), true⟩

/-! ## Broadcast scheduler (`send_recurring_messages`, bot.py lines 1253-1338)

Per-item processing of one tick.  Transport outcomes (delete-previous, send,
pin) are inputs of the model: `sendFails` says the chosen send call raised,
`sent_id` is the platform id on success.  The delete-previous and pin calls
each sit in their own `try/except`, so their outcomes never influence state;
they are still parameters to state that independence.
-/

/-- Transport outcomes for one due item on one tick. -/
structure SendOutcome where
  deleteFails : Bool
  sendFails : Bool
  sent_id : Nat
  pinFails : Bool
deriving DecidableEq

/-- Observable per-item result of one tick: the item's new stored fields,
whether a send call was made, and whether `storage.save_data()` ran. -/
structure TickResult where
  item : RecurringItem
  sendAttempted : Bool
  saved : Bool
deriving DecidableEq

/-- Python truthiness of an optional string field (`if media and media_type`,
`elif text`): present and non-empty. -/
def truthyS : Option String → Bool
  | none => false
  | some s => !s.isEmpty

/-- Whether the item's fields select a send call: truthy `media` and
`media_type` with a recognised type (`photo`/`video`/`animation`), else a
truthy `text`.  Otherwise `sent_message` stays `None` and no send happens. -/
def sendsBranch (it : RecurringItem) : Bool :=
  if truthyS it.media && truthyS it.media_type then
    it.media_type == some "photo" || it.media_type == some "video" ||
    it.media_type == some "animation"
  else truthyS it.text

/-- Processing of a due item inside the outer `try`: a failing send raises
past the timestamp update (nothing stored, no save); a successful send stores
`last_message_id` and `last_sent = now` and saves; with no matching send
branch `sent_message` is `None`, yet `last_sent = now` is still stored and
saved. -/
def processDue (now : Int) (it : RecurringItem) (o : SendOutcome) : TickResult :=
  if sendsBranch it then
    if o.sendFails then ⟨it, true, false⟩
    else ⟨{ it with last_message_id := some o.sent_id, last_sent := now }, true, true⟩
  else ⟨{ it with last_sent := now }, false, true⟩

/-- One scheduler tick on one item: `interval_seconds = msg_data["interval"] * 60`
(a `TypeError` outside any `try` if the field is `None`), then the
eligibility test `current_time - last_sent >= interval_seconds`. -/
def tickItem (now : Int) (it : RecurringItem) (o : SendOutcome) :
    Except String TickResult :=
  match it.interval with
  | none => .error "TypeError: interval is None"
  | some m =>
    if now - it.last_sent ≥ m * 60 then .ok (processDue now it o)
    else .ok ⟨it, false, false⟩

/-! ## Helper lemmas -/

/-- `Char.ofNat` of a codepoint below the surrogate range round-trips. -/
theorem char_toNat_ofNat {n : Nat} (h : n < 55296) : (Char.ofNat n).toNat = n := by
  rw [Char.ofNat, dif_pos (Or.inl h)]
  simp [Char.ofNatAux, Char.toNat, UInt32.toNat, BitVec.toNat_ofNatLt]

/-- ASCII case folding is idempotent. -/
theorem toLower_toLower (c : Char) : c.toLower.toLower = c.toLower := by
  simp only [Char.toLower]
  by_cases h : c.toNat ≥ 65 ∧ c.toNat ≤ 90
  · rw [if_pos h]
    have h32 : (Char.ofNat (c.toNat + 32)).toNat = c.toNat + 32 :=
      char_toNat_ofNat (by omega)
    rw [if_neg]
    rw [h32]
    omega
  · rw [if_neg h, if_neg h]

/-- `lowerL` is idempotent. -/
theorem lowerL_idem (l : List Char) : lowerL (lowerL l) = lowerL l := by
  simp only [lowerL, List.map_map]
  exact List.map_congr_left (fun c _ => toLower_toLower c)

/-- `lowerS` is idempotent (lower-casing an already lower-cased word is the
identity). -/
theorem lowerS_idem (s : String) : lowerS (lowerS s) = lowerS s := by
  simp only [lowerS]
  exact congrArg String.mk (lowerL_idem s.data)

/-- `find?` with the first matching element split off. -/
theorem find?_first_match {α : Type} (p : α → Bool) (l₁ l₂ : List α) (a : α)
    (ha : p a = true) (hl : ∀ q ∈ l₁, p q = false) :
    (l₁ ++ a :: l₂).find? p = some a := by
  induction l₁ with
  | nil => simp [List.find?, ha]
  | cons b t ih =>
    have hb : p b = false := hl b (List.mem_cons_self b t)
    simp only [List.cons_append, List.find?, hb]
    exact ih (fun q hq => hl q (List.mem_cons_of_mem b hq))

/-- The element returned by `find?` satisfies the predicate (wrapper fixing
the implicit arguments from the hypothesis). -/
theorem find?_pred {α : Type} {p : α → Bool} {l : List α} {a : α}
    (h : l.find? p = some a) : p a = true :=
  List.find?_some h

/-- `any` over an association list agrees with `find?` succeeding. -/
theorem assoc_any_isSome {α β : Type} [BEq α] (l : List (α × β)) (k : α) :
    l.any (fun p => p.1 == k) = (l.find? (fun p => p.1 == k)).isSome := by
  induction l with
  | nil => rfl
  | cons p t ih => cases hp : (p.1 == k) <;> simp [List.find?_cons, hp, ih]

/-- `updateAssoc` commutes with `find?` on the updated key. -/
theorem find?_updateAssoc {α β : Type} [BEq α] (l : List (α × β)) (k : α)
    (f : β → β) :
    (updateAssoc l k f).find? (fun p => p.1 == k) =
      (l.find? (fun p => p.1 == k)).map (fun p => (p.1, f p.2)) := by
  induction l with
  | nil => rfl
  | cons p t ih =>
    cases hp : (p.1 == k)
    · rw [updateAssoc, List.map_cons, if_neg (by simp [hp]),
        List.find?_cons_of_neg _ (by simp [hp]),
        List.find?_cons_of_neg _ (by simp [hp])]
      exact ih
    · rw [updateAssoc, List.map_cons, if_pos hp,
        List.find?_cons_of_pos _ (by simpa using hp),
        List.find?_cons_of_pos _ (by simpa using hp)]
      rfl

/-- Appending a fresh entry for key `k` to a list without that key makes it
the one `find?` returns. -/
theorem assoc_find?_append_single {α β : Type} [BEq α] [LawfulBEq α]
    (l : List (α × β)) (k : α) (v : β)
    (h : l.find? (fun p => p.1 == k) = none) :
    (l ++ [(k, v)]).find? (fun p => p.1 == k) = some (k, v) := by
  induction l with
  | nil => simp [List.find?_cons]
  | cons p t ih =>
    cases hp : (p.1 == k)
    · simp only [List.cons_append, List.find?_cons, hp, cond_false]
      exact ih (by simpa [List.find?_cons, hp] using h)
    · rw [List.find?_cons, hp] at h
      cases h

/-- `find?` after `ensureKey` always succeeds: it returns the existing entry
or the freshly appended default one. -/
theorem find?_ensureKey {α β : Type} [BEq α] [LawfulBEq α]
    (l : List (α × β)) (k : α) (d : β) :
    (ensureKey l k d).find? (fun p => p.1 == k) =
      some ((l.find? (fun p => p.1 == k)).getD (k, d)) := by
  unfold ensureKey
  rw [assoc_any_isSome]
  cases hf : l.find? (fun p => p.1 == k) with
  | none =>
    rw [if_neg (by simp)]
    exact assoc_find?_append_single l k d hf
  | some q =>
    rw [if_pos (show (some q).isSome = true from rfl), hf]
    rfl

/-- `ensureKey` does not change the looked-up value. -/
theorem getAssoc_ensureKey {α β : Type} [BEq α] [LawfulBEq α]
    (l : List (α × β)) (k : α) (d : β) :
    getAssoc (ensureKey l k d) k d = getAssoc l k d := by
  unfold getAssoc
  rw [find?_ensureKey]
  cases l.find? (fun p => p.1 == k) <;> rfl

/-- Updating after `ensureKey` applies `f` to the looked-up value. -/
theorem getAssoc_updateAssoc_ensureKey {α β : Type} [BEq α] [LawfulBEq α]
    (l : List (α × β)) (k : α) (d : β) (f : β → β) :
    getAssoc (updateAssoc (ensureKey l k d) k f) k d = f (getAssoc l k d) := by
  unfold getAssoc
  rw [find?_updateAssoc, find?_ensureKey]
  cases l.find? (fun p => p.1 == k) <;> rfl

/-- Updating an existing key applies `f` to the looked-up value. -/
theorem getAssoc_updateAssoc {α β : Type} [BEq α] (l : List (α × β)) (k : α)
    (d : β) (f : β → β) (h : l.any (fun p => p.1 == k) = true) :
    getAssoc (updateAssoc l k f) k d = f (getAssoc l k d) := by
  unfold getAssoc
  rw [find?_updateAssoc]
  rw [assoc_any_isSome] at h
  cases hf : l.find? (fun p => p.1 == k)
  · rw [hf] at h; simp at h
  · rfl

/-- A present looked-up word list forces a present key. -/
theorem any_key_of_get_banned_words {st : BannedStore} {c : String}
    (h : get_banned_words st c ≠ []) :
    st.any (fun p => p.1 == c) = true := by
  rw [assoc_any_isSome]
  cases hf : st.find? (fun p => p.1 == c)
  · rw [get_banned_words, getAssoc, hf] at h; simp at h
  · rfl

/-! ### Storage lemmas (`add_banned_word` / `remove_banned_word`) -/

/-- When no stored word lower-cases to `word.lower()`, adding appends the
lower-cased word to the tenant's list. -/
theorem get_add_banned_word_new (st : BannedStore) (c w : String)
    (h : (get_banned_words st c).any (fun x => lowerS x == lowerS w) = false) :
    get_banned_words (add_banned_word st c w) c =
      get_banned_words st c ++ [lowerS w] := by
  unfold add_banned_word
  have hcond : get_banned_words (ensureKey st c []) c = get_banned_words st c :=
    getAssoc_ensureKey st c []
  rw [hcond, if_neg (by simp [h])]
  exact getAssoc_updateAssoc_ensureKey st c [] (fun ws => ws ++ [lowerS w])

/-- Adding a word whose lower-casing is already stored is a no-op on the
whole store. -/
theorem add_banned_word_noop (st : BannedStore) (c w : String)
    (h : (get_banned_words st c).any (fun x => lowerS x == lowerS w) = true) :
    add_banned_word st c w = st := by
  have hk : st.any (fun p => p.1 == c) = true := by
    apply any_key_of_get_banned_words
    intro hempty
    rw [hempty] at h
    cases h
  unfold add_banned_word
  have hens : ensureKey st c [] = st := by unfold ensureKey; rw [if_pos hk]
  rw [hens, h, if_pos rfl]

/-- Removing filters the tenant's list by lower-cased inequality. -/
theorem get_remove_banned_word (st : BannedStore) (c w : String) :
    get_banned_words (remove_banned_word st c w) c =
      (get_banned_words st c).filter (fun x => !(lowerS x == lowerS w)) := by
  unfold remove_banned_word
  cases hk : st.any (fun p => p.1 == c)
  · rw [if_neg (by simp)]
    rw [assoc_any_isSome] at hk
    cases hf : st.find? (fun p => p.1 == c)
    · unfold get_banned_words getAssoc
      rw [hf]
      rfl
    · rw [hf] at hk; simp at hk
  · rw [if_pos rfl]
    exact getAssoc_updateAssoc st c []
      (fun ws => ws.filter (fun x => !(lowerS x == lowerS w))) hk

/-- `add_recurring_message` appends the item at the end of the tenant's
list, whether or not the key already exists. -/
theorem getRecurring_addRecurring (rs : RecStore) (k : Option String)
    (it : RecurringItem) :
    getRecurring (addRecurring rs k it) k = getRecurring rs k ++ [it] := by
  unfold getRecurring addRecurring
  exact getAssoc_updateAssoc_ensureKey rs k [] (fun items => items ++ [it])

/-! ### Claim C6 -/

/-- C6: adding a banned word stores it lower-cased (appended to the tenant's
list), is a no-op when the lower-cased word already exists, and adding then
removing the same word in a different letter case leaves the tenant's
banned-word set empty. -/
theorem c6_banned_word_roundtrip :
    (∀ (st : BannedStore) (c w : String),
      (get_banned_words st c).any (fun x => lowerS x == lowerS w) = false →
      get_banned_words (add_banned_word st c w) c =
        get_banned_words st c ++ [lowerS w]) ∧
    (∀ (st : BannedStore) (c w : String),
      (get_banned_words st c).any (fun x => lowerS x == lowerS w) = true →
      add_banned_word st c w = st) ∧
    (∀ (st : BannedStore) (c w w' : String),
      get_banned_words st c = [] → lowerS w' = lowerS w →
      get_banned_words (remove_banned_word (add_banned_word st c w) c w') c = []) := by
  refine ⟨get_add_banned_word_new, add_banned_word_noop, ?_⟩
  intro st c w w' hempty hcase
  rw [get_remove_banned_word, get_add_banned_word_new st c w (by simp [hempty]),
    hempty, List.nil_append]
  simp [hcase, lowerS_idem]

/-- Witness for C6: on an empty store, adding `"Scam"` stores `"scam"`,
re-adding `"SCAM"` is a no-op, and removing `"SCAM"` leaves the tenant's
banned-word set empty. -/
theorem c6_banned_word_roundtrip_witness :
    get_banned_words (add_banned_word [] "g" "Scam") "g" = ["scam"] ∧
    add_banned_word [("g", ["scam"])] "g" "SCAM" = [("g", ["scam"])] ∧
    get_banned_words
      (remove_banned_word (add_banned_word [] "g" "Scam") "g" "SCAM") "g" = [] :=
  ⟨by rw [c6_banned_word_roundtrip.1 [] "g" "Scam" (by decide)]; decide,
   c6_banned_word_roundtrip.2.1 [("g", ["scam"])] "g" "SCAM" (by decide),
   c6_banned_word_roundtrip.2.2 [] "g" "Scam" "SCAM" rfl (by decide)⟩

/-! ### Claim C5 -/

/-- C5: the explicit save action on a session converts it into a
`RecurringItem` with `last_sent = 0` and `last_message_id` unset, copies all
other fields verbatim, appends the item via the store's add operation,
destroys the session, and a subsequent cancel is a no-op (the session no
longer exists, so the text handler returns without touching anything). -/
theorem c5_finalize_session (state : Option String) (temp : Option Session)
    (rs : RecStore) (s : Session) (h : temp = some s) :
    (confirmSave state temp rs).saved = true ∧
    (confirmSave state temp rs).temp = none ∧
    (confirmSave state temp rs).state = none ∧
    getRecurring (confirmSave state temp rs).store s.chat_id =
      getRecurring rs s.chat_id ++ [finalizeSession s] ∧
    (finalizeSession s).last_sent = 0 ∧
    (finalizeSession s).last_message_id = none ∧
    (finalizeSession s).text = s.text ∧
    (finalizeSession s).media = s.media ∧
    (finalizeSession s).media_type = s.media_type ∧
    (finalizeSession s).buttons = s.buttons ∧
    (finalizeSession s).interval = s.interval ∧
    (finalizeSession s).delete_previous = s.delete_previous ∧
    (finalizeSession s).pin_message = s.pin_message ∧
    (∀ adminOk : Bool,
      handleTextInput (confirmSave state temp rs).state
          (confirmSave state temp rs).temp "/cancel" adminOk =
        ⟨(confirmSave state temp rs).state, (confirmSave state temp rs).temp, none⟩) := by
  subst h
  refine ⟨rfl, rfl, rfl, ?_, rfl, rfl, rfl, rfl, rfl, rfl, rfl, rfl, rfl,
    fun adminOk => rfl⟩
  exact getRecurring_addRecurring rs s.chat_id (finalizeSession s)

/-- Witness for C5: the spec's finalization scenario. -/
theorem c5_finalize_session_witness :
    (confirmSave (some "waiting_interval")
        (some { text := some "Hello", media := none, media_type := none,
                buttons := [⟨"Visit", "https://x.com"⟩], interval := some 10,
                chat_id := some "-100123", delete_previous := true,
                pin_message := false }) []).saved = true ∧
    getRecurring
        (confirmSave (some "waiting_interval")
          (some { text := some "Hello", media := none, media_type := none,
                  buttons := [⟨"Visit", "https://x.com"⟩], interval := some 10,
                  chat_id := some "-100123", delete_previous := true,
                  pin_message := false }) []).store (some "-100123") =
      [{ text := some "Hello", media := none, media_type := none,
         buttons := [⟨"Visit", "https://x.com"⟩], interval := some 10,
         delete_previous := true, pin_message := false,
         last_sent := 0, last_message_id := none }] := by
  have h := c5_finalize_session (some "waiting_interval")
    (some { text := some "Hello", media := none, media_type := none,
            buttons := [⟨"Visit", "https://x.com"⟩], interval := some 10,
            chat_id := some "-100123", delete_previous := true,
            pin_message := false }) []
    { text := some "Hello", media := none, media_type := none,
      buttons := [⟨"Visit", "https://x.com"⟩], interval := some 10,
      chat_id := some "-100123", delete_previous := true,
      pin_message := false } rfl
  exact ⟨h.1, by rw [h.2.2.2.1]; rfl⟩

/-! ### Claim C7 -/

/-- C7 counterexample: a plain text (non-media) input while the session is
in the media step is ignored silently — no re-prompt is sent, contradicting
the claimed reject-with-re-prompt behaviour (the state is indeed
unchanged). -/
theorem c7_media_counterexample :
    handleTextInput (some "waiting_media") (some freshSession) "not a photo" true =
      ⟨some "waiting_media", some freshSession, none⟩ := by
  rfl

/-- C7 (amended): a photo/video/animation attachment records its opaque file
reference and type and advances to the buttons step; a media-handler message
without photo/video/animation is rejected with the unsupported-media
re-prompt, state unchanged; but a plain text input in the media step is
ignored silently (state unchanged and no reply at all). -/
theorem c7_media_step (s : Session) (fid : String) :
    handleMediaInput (some "waiting_media") (some s) (.photo fid) =
      ⟨some "waiting_buttons",
       some { s with media := some fid, media_type := some "photo" },
       some .step4Buttons⟩ ∧
    handleMediaInput (some "waiting_media") (some s) (.video fid) =
      ⟨some "waiting_buttons",
       some { s with media := some fid, media_type := some "video" },
       some .step4Buttons⟩ ∧
    handleMediaInput (some "waiting_media") (some s) (.animation fid) =
      ⟨some "waiting_buttons",
       some { s with media := some fid, media_type := some "animation" },
       some .step4Buttons⟩ ∧
    handleMediaInput (some "waiting_media") (some s) .other =
      ⟨some "waiting_media", some s, some .unsupportedMedia⟩ ∧
    (∀ (input : String) (adminOk : Bool), (input == "/cancel") = false →
      handleTextInput (some "waiting_media") (some s) input adminOk =
        ⟨some "waiting_media", some s, none⟩) := by
  refine ⟨rfl, rfl, rfl, rfl, fun input adminOk hc => ?_⟩
  simp [handleTextInput, stateFalsy, hc]

/-- Witness for C7 (amended): a concrete photo advances the session; a
concrete text input is silently ignored. -/
theorem c7_media_step_witness :
    handleMediaInput (some "waiting_media") (some freshSession) (.photo "F1") =
      ⟨some "waiting_buttons",
       some { freshSession with media := some "F1", media_type := some "photo" },
       some .step4Buttons⟩ ∧
    handleTextInput (some "waiting_media") (some freshSession) "hello" true =
      ⟨some "waiting_media", some freshSession, none⟩ :=
  ⟨(c7_media_step freshSession "F1").1,
   (c7_media_step freshSession "F1").2.2.2.2 "hello" true (by decide)⟩

/-! ### Claim C8 -/

/-- C8 counterexample: the input `SKIP` is not the literal `skip`, so by the
claim it should be stored verbatim as the message text; the code
lower-cases before comparing and leaves the text unset. -/
theorem c8_text_counterexample :
    handleTextInput (some "waiting_text") (some freshSession) "SKIP" true =
      ⟨some "waiting_media", some freshSession, some .step3Media⟩ ∧
    freshSession.text = none := by
  exact ⟨rfl, rfl⟩

/-- C8 (amended): in the text step, any input equal to `skip` after
lower-casing (not just the literal `skip`) leaves the text field unchanged;
any other input sets the text verbatim; both advance to the media step. -/
theorem c8_text_step (s : Session) (input : String) (adminOk : Bool)
    (hc : (input == "/cancel") = false) :
    ((lowerS input == "skip") = true →
      handleTextInput (some "waiting_text") (some s) input adminOk =
        ⟨some "waiting_media", some s, some .step3Media⟩) ∧
    ((lowerS input == "skip") = false →
      handleTextInput (some "waiting_text") (some s) input adminOk =
        ⟨some "waiting_media", some { s with text := some input },
         some .step3Media⟩) := by
  constructor <;> intro h <;>
    simp [handleTextInput, stateFalsy, hc, h,
      show "waiting_text".isEmpty = false from rfl]

/-- Witness for C8 (amended): `skip` leaves the text unset, `Hello` is
stored verbatim. -/
theorem c8_text_step_witness :
    handleTextInput (some "waiting_text") (some freshSession) "skip" true =
      ⟨some "waiting_media", some freshSession, some .step3Media⟩ ∧
    handleTextInput (some "waiting_text") (some freshSession) "Hello" true =
      ⟨some "waiting_media", some { freshSession with text := some "Hello" },
       some .step3Media⟩ :=
  ⟨(c8_text_step freshSession "skip" true (by decide)).1 (by decide),
   (c8_text_step freshSession "Hello" true (by decide)).2 (by decide)⟩

/-! ### Claim C9 -/

/-- `splitFirstBar` fails exactly on bar-free lines. -/
theorem splitFirstBar_eq_none (l : List Char) :
    splitFirstBar l = none ↔ '|' ∉ l := by
  induction l with
  | nil => simp [splitFirstBar]
  | cons c t ih =>
    by_cases hc : c = '|'
    · subst hc
      simp [splitFirstBar]
    · have hc' : ¬ ('|' = c) := fun h => hc h.symm
      rw [splitFirstBar, if_neg (by simp [hc])]
      simp [Option.map_eq_none', ih, List.mem_cons, hc']

/-- `splitFirstBar` splits at the first bar: the line is recomposed from the
two halves around a `'|'` and the left half is bar-free. -/
theorem splitFirstBar_eq_some (l : List Char) :
    ∀ pre post, splitFirstBar l = some (pre, post) →
      l = pre ++ '|' :: post ∧ '|' ∉ pre := by
  induction l with
  | nil => intro pre post h; cases h
  | cons c t ih =>
    intro pre post h
    by_cases hc : c = '|'
    · subst hc
      rw [splitFirstBar, if_pos (by simp)] at h
      cases h
      simp
    · rw [splitFirstBar, if_neg (by simp [hc])] at h
      cases hs : splitFirstBar t with
      | none => rw [hs] at h; cases h
      | some q =>
        rw [hs] at h
        cases h
        obtain ⟨hq1, hq2⟩ := ih q.1 q.2 (by rw [hs])
        have hc' : ¬ ('|' = c) := fun h => hc h.symm
        constructor
        · simpa using hq1
        · simp [List.mem_cons, hq2, hc']

/-- C9: in the buttons step, `skip` (case-insensitively, as the code
lower-cases first) yields an empty button list; any other input is split
into newline-separated lines, every line containing `'|'` contributes one
label/url button split at the first `'|'`, every bar-free line is silently
dropped, the step advances unconditionally, and the spec's example input
yields exactly the two buttons `A` and `B`. -/
theorem c9_buttons_step :
    (∀ (s : Session) (input : String) (adminOk : Bool),
      (input == "/cancel") = false →
      ((lowerS input == "skip") = true →
        handleTextInput (some "waiting_buttons") (some s) input adminOk =
          ⟨some "waiting_delete_option", some { s with buttons := [] },
           some .deleteOptionPrompt⟩) ∧
      ((lowerS input == "skip") = false →
        handleTextInput (some "waiting_buttons") (some s) input adminOk =
          ⟨some "waiting_delete_option",
           some { s with buttons := parseButtons input },
           some .deleteOptionPrompt⟩)) ∧
    (∀ line : List Char, parseButtonLine line = none ↔ '|' ∉ line) ∧
    (∀ (line pre post : List Char),
      splitFirstBar line = some (pre, post) →
      parseButtonLine line =
        some ⟨String.mk (stripChars pre), String.mk (stripChars post)⟩ ∧
      line = pre ++ '|' :: post ∧ '|' ∉ pre) ∧
    parseButtons "A|https://a.com\nBad line\nB|https://b.com" =
      [⟨"A", "https://a.com"⟩, ⟨"B", "https://b.com"⟩] := by
  refine ⟨fun s input adminOk hc => ?_, fun line => ?_, fun line pre post h => ?_, ?_⟩
  · constructor <;> intro h <;>
      simp [handleTextInput, stateFalsy, hc, h,
        show "waiting_buttons".isEmpty = false from rfl]
  · simp [parseButtonLine, Option.map_eq_none', splitFirstBar_eq_none]
  · refine ⟨?_, splitFirstBar_eq_some line pre post h⟩
    simp [parseButtonLine, h]
  · rfl

/-- Witness for C9: the claim's example input in a live buttons step. -/
theorem c9_buttons_step_witness :
    handleTextInput (some "waiting_buttons") (some freshSession)
        "A|https://a.com\nBad line\nB|https://b.com" true =
      ⟨some "waiting_delete_option",
       some { freshSession with
              buttons := [⟨"A", "https://a.com"⟩, ⟨"B", "https://b.com"⟩] },
       some .deleteOptionPrompt⟩ := by
  have h := (c9_buttons_step.1 freshSession
    "A|https://a.com\nBad line\nB|https://b.com" true (by decide)).2 (by decide)
  rw [h, c9_buttons_step.2.2.2]

/-! ### Claim C2 -/

/-- C2: for a due item whose fields select a send call, a failing send
leaves the stored fields untouched and unflushed and the item stays eligible
at any later tick; a successful send stores `last_sent = now` and the new
message id and flushes, and the whole per-item outcome is independent of the
delete-previous and pin outcomes. -/
theorem c2_send_failure_retry (now : Int) (it : RecurringItem) (o : SendOutcome)
    (m : Int) (hm : it.interval = some m) (hdue : now - it.last_sent ≥ m * 60)
    (hbr : sendsBranch it = true) :
    (o.sendFails = true →
      tickItem now it o = .ok ⟨it, true, false⟩ ∧
      ∀ now' : Int, now' ≥ now → now' - it.last_sent ≥ m * 60) ∧
    (o.sendFails = false →
      tickItem now it o =
        .ok ⟨{ it with last_sent := now, last_message_id := some o.sent_id },
             true, true⟩) ∧
    (∀ d p : Bool,
      tickItem now it o = tickItem now it ⟨d, o.sendFails, o.sent_id, p⟩) := by
  refine ⟨fun hf => ⟨?_, fun now' h' => by omega⟩, fun hf => ?_, fun d p => ?_⟩
  · simp [tickItem, hm, hdue, processDue, hbr, hf]
  · simp [tickItem, hm, hdue, processDue, hbr, hf]
  · cases o
    simp [tickItem, hm, processDue]

/-- Witness for C2: a due text-only item retried after a failing send and
updated after a successful one. -/
theorem c2_send_failure_retry_witness :
    tickItem 60
        { text := some "Hello", media := none, media_type := none,
          buttons := [], interval := some 1, delete_previous := false,
          pin_message := false, last_sent := 0, last_message_id := none }
        ⟨false, true, 42, false⟩ =
      .ok ⟨{ text := some "Hello", media := none, media_type := none,
             buttons := [], interval := some 1, delete_previous := false,
             pin_message := false, last_sent := 0, last_message_id := none },
           true, false⟩ ∧
    tickItem 60
        { text := some "Hello", media := none, media_type := none,
          buttons := [], interval := some 1, delete_previous := false,
          pin_message := false, last_sent := 0, last_message_id := none }
        ⟨false, false, 42, false⟩ =
      .ok ⟨{ text := some "Hello", media := none, media_type := none,
             buttons := [], interval := some 1, delete_previous := false,
             pin_message := false, last_sent := 60, last_message_id := some 42 },
           true, true⟩ :=
  ⟨((c2_send_failure_retry 60 _ ⟨false, true, 42, false⟩ 1 rfl (by decide)
      (by decide)).1 rfl).1,
   (c2_send_failure_retry 60 _ ⟨false, false, 42, false⟩ 1 rfl (by decide)
      (by decide)).2.1 rfl⟩

/-! ### Claim C3 -/

/-- A due item with `media` set but `media_type` unset (so no send branch
matches). -/
def itemMediaNoType : RecurringItem :=
  { text := none, media := some "file123", media_type := none, buttons := [],
    interval := some 1, delete_previous := false, pin_message := false,
    last_sent := 0, last_message_id := none }

/-- C3 counterexample: at `now = 100` the item `itemMediaNoType` has
`elapsed = 100 - 0 ≥ 1 * 60`, yet the tick makes no send call (it only
advances `last_sent`), so "sends iff elapsed ≥ interval·60" fails. -/
theorem c3_counterexample :
    (100 : Int) - itemMediaNoType.last_sent ≥ 1 * 60 ∧
    tickItem 100 itemMediaNoType ⟨false, false, 7, false⟩ =
      .ok ⟨{ itemMediaNoType with last_sent := 100 }, false, true⟩ := by
  exact ⟨by decide, rfl⟩

/-- C3 (amended): a tick makes a send call for an item iff
`now - last_sent ≥ interval * 60` AND the item's fields select a send branch
(recognised media type, or text); elapsed below the interval is a strict
no-op; and an item with `last_sent = 0` and a matching branch is sent on the
very first tick (any `now ≥ interval * 60`, which real epoch clocks
satisfy). -/
theorem c3_send_iff_due_and_branch (now : Int) (it : RecurringItem)
    (o : SendOutcome) (m : Int) (hm : it.interval = some m) :
    ((∃ r, tickItem now it o = .ok r ∧ r.sendAttempted = true) ↔
      (now - it.last_sent ≥ m * 60 ∧ sendsBranch it = true)) ∧
    (now - it.last_sent < m * 60 → tickItem now it o = .ok ⟨it, false, false⟩) ∧
    (it.last_sent = 0 → now ≥ m * 60 → sendsBranch it = true →
      ∃ r, tickItem now it o = .ok r ∧ r.sendAttempted = true) := by
  have hex : ∀ x : TickResult,
      (∃ r, (Except.ok x : Except String TickResult) = .ok r ∧
        r.sendAttempted = true) ↔ x.sendAttempted = true := by
    intro x
    constructor
    · rintro ⟨r, hr, ha⟩
      cases hr
      exact ha
    · intro h
      exact ⟨x, rfl, h⟩
  have hiff : (∃ r, tickItem now it o = .ok r ∧ r.sendAttempted = true) ↔
      (now - it.last_sent ≥ m * 60 ∧ sendsBranch it = true) := by
    by_cases hdue : now - it.last_sent ≥ m * 60
    · rw [show tickItem now it o = .ok (processDue now it o) from by
        simp only [tickItem, hm, if_pos hdue], hex]
      unfold processDue
      cases hbr : sendsBranch it
      · simp [hdue]
      · cases hsf : o.sendFails <;> simp [hdue]
    · rw [show tickItem now it o = .ok ⟨it, false, false⟩ from by
        simp only [tickItem, hm, if_neg hdue], hex]
      simp [hdue]
  refine ⟨hiff, fun hlt => ?_, fun h0 hge hbr => ?_⟩
  · have hn : ¬(now - it.last_sent ≥ m * 60) := by omega
    simp only [tickItem, hm, if_neg hn]
  · exact hiff.mpr ⟨by omega, hbr⟩

/-- Witness for C3 (amended): a text-only item at `last_sent = 0` is sent on
the first tick, and below the interval nothing happens. -/
theorem c3_send_iff_due_and_branch_witness :
    (∃ r, tickItem 60
        { text := some "Hi", media := none, media_type := none, buttons := [],
          interval := some 1, delete_previous := false, pin_message := false,
          last_sent := 0, last_message_id := none }
        ⟨false, false, 7, false⟩ = .ok r ∧ r.sendAttempted = true) ∧
    tickItem 30
        { text := some "Hi", media := none, media_type := none, buttons := [],
          interval := some 1, delete_previous := false, pin_message := false,
          last_sent := 0, last_message_id := none }
        ⟨false, false, 7, false⟩ =
      .ok ⟨{ text := some "Hi", media := none, media_type := none,
             buttons := [], interval := some 1, delete_previous := false,
             pin_message := false, last_sent := 0, last_message_id := none },
           false, false⟩ :=
  ⟨(c3_send_iff_due_and_branch 60 _ ⟨false, false, 7, false⟩ 1 rfl).2.2 rfl
      (by decide) (by decide),
   (c3_send_iff_due_and_branch 30 _ ⟨false, false, 7, false⟩ 1 rfl).2.1
      (by decide)⟩

/-! ### Claim C10 -/

/-- C10: a due item matching no send branch still gets `last_sent` advanced
to `now` and the snapshot flushed, with no send call; at the next tick
within the new interval it is skipped, not retried. -/
theorem c10_no_branch_advances (now : Int) (it : RecurringItem)
    (o : SendOutcome) (m : Int) (hm : it.interval = some m)
    (hdue : now - it.last_sent ≥ m * 60) (hbr : sendsBranch it = false) :
    tickItem now it o = .ok ⟨{ it with last_sent := now }, false, true⟩ ∧
    (∀ (now' : Int) (o' : SendOutcome), now' - now < m * 60 →
      tickItem now' { it with last_sent := now } o' =
        .ok ⟨{ it with last_sent := now }, false, false⟩) := by
  constructor
  · simp [tickItem, hm, hdue, processDue, hbr]
  · intro now' o' hlt
    have hn : ¬(now' - now ≥ m * 60) := by omega
    simp only [tickItem, hm, if_neg hn]

/-- Witness for C10: the media-without-type item is silently advanced at
`now = 100` and skipped at `now = 130`. -/
theorem c10_no_branch_advances_witness :
    tickItem 100 itemMediaNoType ⟨true, true, 7, true⟩ =
      .ok ⟨{ itemMediaNoType with last_sent := 100 }, false, true⟩ ∧
    tickItem 130 { itemMediaNoType with last_sent := 100 }
        ⟨false, false, 7, false⟩ =
      .ok ⟨{ itemMediaNoType with last_sent := 100 }, false, false⟩ :=
  ⟨(c10_no_branch_advances 100 itemMediaNoType ⟨true, true, 7, true⟩ 1 rfl
      (by decide) (by decide)).1,
   (c10_no_branch_advances 100 itemMediaNoType ⟨true, true, 7, true⟩ 1 rfl
      (by decide) (by decide)).2 130 ⟨false, false, 7, false⟩ (by decide)⟩

/-! ### Claim C1 -/

/-- C1: for a non-admin sender the deletion policies are evaluated with
strict precedence link > mention > banned word: with link blocking enabled
and a link match the reason is `links` regardless of mentions or banned
words; only otherwise is the mention pattern consulted, and only after that
the banned-word substring check decides. -/
theorem c1_moderation_precedence (cfg : ModConfig) (text : String) :
    (cfg.block_links = true → linkMatch text = true →
      deleteDecision cfg false text = some .links) ∧
    ((cfg.block_links && linkMatch text) = false →
      cfg.block_mentions = true → mentionSearch text.data = true →
      deleteDecision cfg false text = some .mentions) ∧
    ((cfg.block_links && linkMatch text) = false →
      (cfg.block_mentions && mentionSearch text.data) = false →
      deleteDecision cfg false text =
        if (firstBannedWord cfg.banned_words (lowerL text.data)).isSome then
          some .bannedWord
        else none) := by
  refine ⟨fun h1 h2 => ?_, fun h1 h2 h3 => ?_, fun h1 h2 => ?_⟩ <;>
    simp [deleteDecision, h1, h2, *]

/-- Witness for C1: a message carrying a link, a mention and a banned word is
deleted for `links`; without link blocking, for `mentions`; without either
toggle, for the banned word. -/
theorem c1_moderation_precedence_witness :
    deleteDecision ⟨true, true, ["scam"], []⟩ false "join t.me/x scam @user" =
      some .links ∧
    deleteDecision ⟨false, true, ["scam"], []⟩ false "join t.me/x scam @user" =
      some .mentions ∧
    deleteDecision ⟨false, false, ["scam"], []⟩ false "join t.me/x scam @user" =
      some .bannedWord :=
  ⟨(c1_moderation_precedence ⟨true, true, ["scam"], []⟩ _).1 rfl (by decide),
   (c1_moderation_precedence ⟨false, true, ["scam"], []⟩ _).2.1 rfl rfl (by decide),
   (c1_moderation_precedence ⟨false, false, ["scam"], []⟩ _).2.2 rfl rfl⟩

/-! ### Claim C4 -/

/-- C4: an auto-reply is emitted iff the lower-cased body contains some
configured trigger as a substring, only the first matching trigger in map
iteration order fires, the auto-reply outcome is independent of sender role,
and the deletion filters never fire for an admin sender. -/
theorem c4_auto_reply_role_independent (cfg : ModConfig) (text : String) :
    (∀ a b : Bool, (filterMessage cfg a text).1 = (filterMessage cfg b text).1) ∧
    ((autoReplyFor cfg text).isSome = true ↔
      ∃ p ∈ cfg.auto_replies, containsSub p.1.data (lowerL text.data) = true) ∧
    (∀ (l₁ l₂ : List (String × String)) (p : String × String),
      cfg.auto_replies = l₁ ++ p :: l₂ →
      containsSub p.1.data (lowerL text.data) = true →
      (∀ q ∈ l₁, containsSub q.1.data (lowerL text.data) = false) →
      autoReplyFor cfg text = some p.2) ∧
    (filterMessage cfg true text).2 = none := by
  refine ⟨fun a b => rfl, ?_, ?_, ?_⟩
  · rcases hf : cfg.auto_replies.find? (fun p => containsSub p.1.data (lowerL text.data))
      with _ | q
    · simp only [autoReplyFor, hf]
      constructor
      · intro h; cases h
      · rintro ⟨p, hmem, hp⟩
        have hnone := List.find?_eq_none.mp hf p hmem
        simp [hp] at hnone
    · simp only [autoReplyFor, hf]
      constructor
      · intro _
        have hq := find?_pred hf
        exact ⟨q, List.mem_of_find?_eq_some hf, hq⟩
      · intro _; rfl
  · intro l₁ l₂ p hsplit hp hl
    simp [autoReplyFor, hsplit, find?_first_match _ l₁ l₂ p hp hl]
  · simp [filterMessage, deleteDecision]

/-- Witness for C4: with triggers `faq` then `price`, a message containing
both (sent by an admin and by a member alike) gets the `faq` reply, and the
admin's message is not deleted despite all filters being armed. -/
theorem c4_auto_reply_role_independent_witness :
    (filterMessage ⟨true, true, ["faq"], [("faq", "See pinned"), ("price", "Ask")]⟩
        true "FAQ price?").1 =
      (filterMessage ⟨true, true, ["faq"], [("faq", "See pinned"), ("price", "Ask")]⟩
        false "FAQ price?").1 ∧
    autoReplyFor ⟨true, true, ["faq"], [("faq", "See pinned"), ("price", "Ask")]⟩
        "FAQ price?" = some "See pinned" ∧
    (filterMessage ⟨true, true, ["faq"], [("faq", "See pinned"), ("price", "Ask")]⟩
        true "FAQ price?").2 = none :=
  ⟨(c4_auto_reply_role_independent _ _).1 true false,
   (c4_auto_reply_role_independent _ "FAQ price?").2.2.1 []
     [("price", "Ask")] ("faq", "See pinned") rfl (by decide)
     (fun q hq => by simp at hq),
   (c4_auto_reply_role_independent _ _).2.2.2⟩

end GroupBot
